import Mathlib

/-!
Shallow embedding of the chain-interaction objects of Kalatori
(`src/chain/definitions.rs` and `src/callback.rs`), together with proofs
of the specified properties of `BlockHash`, `WatchAccount`, `Invoice` and
the tracker request protocol.

Machine integers are modelled as `Nat` (no arithmetic in the embedded code
overflows: the only operations are comparisons and table lookups); byte
strings are lists of `Fin 256`; fallible operations return `Except`;
asynchronous fallible network calls are modelled as explicit oracle
functions returning `Except`.
-/

/-- A byte, as stored in `Vec<u8>` / `[u8; N]`. -/
abbrev Byte := Fin 256

/-- `primitive_types::H256`: exactly 32 raw bytes. -/
def H256 := { l : List Byte // l.length = 32 }

instance : DecidableEq H256 := fun a b =>
  decidable_of_iff (a.val = b.val) Subtype.ext_iff.symm

/-- The hex-decoding error tags of `crate::error::NotHexError` used here. -/
inductive NotHexError
  | BlockHash
  deriving DecidableEq

/-- The variants of `crate::error::ChainError` reachable from the embedded
code: `NotHex` (malformed hex), `BlockHashLength` (decoded byte count ≠ 32),
`InvoiceAccount` (base58 address decode failure, carrying the reason),
`InvalidCurrency` (registry lookup miss, carrying the currency name). -/
inductive ChainError
  | NotHex (e : NotHexError)
  | BlockHashLength
  | InvoiceAccount (reason : String)
  | InvalidCurrency (name : String)
  deriving DecidableEq

/-- Lowercase hex digit for a nibble, as produced by `const_hex::encode`. -/
def hexDigitChar (n : Fin 16) : Char :=
  if n.val < 10 then Char.ofNat (48 + n.val) else Char.ofNat (87 + n.val)

/-- The two lowercase hex digits of one byte (high nibble first). -/
def byteToHex (b : Byte) : List Char :=
  [hexDigitChar ⟨b.val / 16, by omega⟩, hexDigitChar ⟨b.val % 16, by omega⟩]

/-- Value of one hex character, case-insensitive as in `const_hex::decode`;
`none` for a non-hex character. -/
def hexCharValue (c : Char) : Option (Fin 16) :=
  if h : 48 ≤ c.toNat ∧ c.toNat ≤ 57 then some ⟨c.toNat - 48, by omega⟩
  else if h : 97 ≤ c.toNat ∧ c.toNat ≤ 102 then some ⟨c.toNat - 87, by omega⟩
  else if h : 65 ≤ c.toNat ∧ c.toNat ≤ 70 then some ⟨c.toNat - 55, by omega⟩
  else none

/-- Combine a high and a low nibble into one byte. -/
def combineNibbles (hi lo : Fin 16) : Byte :=
  ⟨hi.val * 16 + lo.val, by have := hi.isLt; have := lo.isLt; omega⟩

/-- Decode a list of hex characters into bytes; `none` on an odd-length
list or on any non-hex character. -/
def hexDecodeChars : List Char → Option (List Byte)
  | [] => some []
  | [_] => none
  | c1 :: c2 :: rest =>
    match hexCharValue c1, hexCharValue c2, hexDecodeChars rest with
    | some hi, some lo, some tail => some (combineNibbles hi lo :: tail)
    | _, _, _ => none

/-- The characters of a decoded string with the optional `0x` prefix
removed, as `const_hex::decode` does before decoding. -/
def stripHexPrefix (l : List Char) : List Char :=
  if l.take 2 = ['0', 'x'] then l.drop 2 else l

/-- Modelled from the spec: `crate::utils::unhex` is not under `src/`; per
the spec, block-hash text decoding fails with the malformed-hex kind on
non-hex characters or odd-length hex, and the canonical text form carries a
`0x` prefix (so the round-trip law can hold, the prefix is stripped before
decoding, as `const_hex::decode` does). -/
def unhex (s : String) (e : NotHexError) : Except ChainError (List Byte) :=
  match hexDecodeChars (stripHexPrefix s.data) with
  | some bytes => .ok bytes
  | none => .error (.NotHex e)

/-- `BlockHash`: abstraction to distinguish a block hash from other
`H256` things (`src/chain/definitions.rs:22`). -/
structure BlockHash where
  val : H256

instance : DecidableEq BlockHash := fun a b =>
  decidable_of_iff (a.val = b.val) (by cases a; cases b; simp)

/-- `BlockHash::to_string` (`src/chain/definitions.rs:26`):
`format!("0x{}", const_hex::encode(&self.0))`. -/
def BlockHash.to_string (h : BlockHash) : String :=
  ⟨'0' :: 'x' :: h.val.val.flatMap byteToHex⟩

/-- `BlockHash::from_str` (`src/chain/definitions.rs:33`): `unhex` the
string, then convert the byte vector into `[u8; 32]`, failing with
`ChainError::BlockHashLength` when the length is not 32. -/
def BlockHash.from_str (s : String) : Except ChainError BlockHash :=
  match unhex s NotHexError.BlockHash with
  | .error e => .error e
  | .ok block_hash_raw =>
    if h : block_hash_raw.length = 32 then .ok ⟨⟨block_hash_raw, h⟩⟩
    else .error ChainError.BlockHashLength

/-- `substrate_crypto_light::common::AccountId32`: a 32-byte account
identifier (the library's internals are an external collaborator; only the
identity of the value matters here). -/
def AccountId32 := H256

instance : DecidableEq AccountId32 :=
  inferInstanceAs (DecidableEq H256)

instance {ε α : Type} [DecidableEq ε] [DecidableEq α] :
    DecidableEq (Except ε α) := fun a b =>
  match a, b with
  | .ok x, .ok y => decidable_of_iff (x = y) (by simp)
  | .error e, .error f => decidable_of_iff (e = f) (by simp)
  | .ok _, .error _ => isFalse (by simp)
  | .error _, .ok _ => isFalse (by simp)

/-- `api_v2::Timestamp` (absolute deadline); modelled as a natural. -/
abbrev Timestamp := ℕ

/-- `api_v2::BlockNumber`; modelled as a natural. -/
abbrev BlockNumber := ℕ

/-- `api_v2::TokenKind`, as constructed in `src/callback.rs`
(`TokenKind::Asset`) and for native-token currencies. -/
inductive TokenKind
  | Asset
  | Native
  deriving DecidableEq

/-- `api_v2::CurrencyInfo`, with the fields constructed in
`src/callback.rs:42-49` and read in `src/chain/definitions.rs`
(`currency`, `decimals`, `asset_id`). -/
structure CurrencyInfo where
  currency : String
  chain_name : String
  kind : TokenKind
  decimals : ℕ
  rpc_url : String
  asset_id : Option ℕ
  deriving DecidableEq

/-- `api_v2::OrderInfo`, restricted to the fields read by
`WatchAccount::new` (`src/chain/definitions.rs:76-83`): the payment
account's base58 text, the currency, the human-unit amount and the
deadline. The Rust `amount` field is an `f64`; it is embedded as a
rational, exact on every amount the claims exercise. -/
structure OrderInfo where
  payment_account : String
  currency : CurrencyInfo
  amount : ℚ
  death : Timestamp

/-- `crate::definitions::Balance` is not under `src/`. Modelled from the
spec: a fixed-point chain amount, an integer value at an implicit decimal
scale (the Rust type wraps an unsigned machine integer). -/
structure Balance where
  val : ℕ
  deriving DecidableEq

instance : LE Balance := ⟨fun a b => a.val ≤ b.val⟩

instance (a b : Balance) : Decidable (a ≤ b) :=
  inferInstanceAs (Decidable (a.val ≤ b.val))

/-- Modelled from the spec: `Balance::parse` from `crate::definitions` is
not under `src/`; per the spec it converts a human-unit due amount into
the fixed-point scale given by the currency's decimal count, i.e.
`fixedPoint(dueAmount, decimals)` = `dueAmount * 10^decimals` rounded to
the nearest integer (clamped at zero for the unsigned balance type). -/
def Balance.parse (amount : ℚ) (decimals : ℕ) : Balance :=
  ⟨(round (amount * 10 ^ decimals)).toNat⟩

/-- One end of a `tokio::sync::oneshot` acknowledgment channel for a
`Result<(), ChainError>`, identified by a channel id; the messages a run
sends on such channels are collected as explicit event lists. -/
structure OneshotSender where
  chan : ℕ
  deriving DecidableEq

/-- A send event on a single-use acknowledgment channel: which channel,
and the `Result<(), ChainError>` value sent. -/
structure ChanSend where
  chan : ℕ
  val : Except ChainError Unit
  deriving DecidableEq

/-- `WatchAccount` (`src/chain/definitions.rs:57-65`): an inbound request
to begin monitoring, with its single-use acceptance channel `res`. -/
structure WatchAccount where
  id : String
  address : AccountId32
  currency : CurrencyInfo
  amount : ℚ
  recipient : AccountId32
  res : OneshotSender
  death : Timestamp

/-- `WatchAccount::new` (`src/chain/definitions.rs:68-85`): decodes the
order's payment-account base58 text via
`AccountId32::from_base58_string` (an external library call, passed here
as the oracle `from_base58_string` returning the account and the format
discriminant, or the error's display string), mapping a decode failure to
`ChainError::InvoiceAccount(reason)`. -/
def WatchAccount.new (from_base58_string : String → Except String (AccountId32 × ℕ))
    (id : String) (order : OrderInfo) (recipient : AccountId32)
    (res : OneshotSender) : Except ChainError WatchAccount :=
  match from_base58_string order.payment_account with
  | .error e => .error (ChainError.InvoiceAccount e)
  | .ok a =>
    .ok { id := id, address := a.1, currency := order.currency,
          amount := order.amount, recipient := recipient, res := res,
          death := order.death }

/-- `ChainTrackerRequest` (`src/chain/definitions.rs:88-94`): the
instruction set of a per-chain tracker. The `NewBlock` variant's payload
is a `BlockNumber`. -/
inductive ChainTrackerRequest
  | WatchAccount (wa : WatchAccount)
  | NewBlock (n : BlockNumber)
  | Reap (wa : WatchAccount)
  | ForceReap (wa : WatchAccount)
  | Shutdown (ack : OneshotSender)

/-- `Invoice` (`src/chain/definitions.rs:97-104`): an actively monitored
payment; note that it carries no acceptance channel. -/
structure Invoice where
  id : String
  address : AccountId32
  currency : CurrencyInfo
  amount : ℚ
  recipient : AccountId32
  death : Timestamp

/-- `Invoice::from_request` (`src/chain/definitions.rs:107-117`): sends
`Ok(())` on the watch account's single-use acceptance channel (dropping
the send result and, by move semantics, the consumed sender) and builds
the invoice from the remaining fields. The value returned is the invoice
paired with the list of channel sends performed. -/
def Invoice.from_request (watch_account : WatchAccount) :
    Invoice × List ChanSend :=
  ({ id := watch_account.id, address := watch_account.address,
     currency := watch_account.currency, amount := watch_account.amount,
     recipient := watch_account.recipient, death := watch_account.death },
   [{ chan := watch_account.res.chan, val := .ok () }])

/-- Modelled from the spec: the decoded chain metadata
(`crate::chain::tracker` internals are not under `src/`); the queries
treat it as an abstract token, so it is one. -/
structure RuntimeMetadata where
  snapshot : ℕ
  deriving DecidableEq

/-- Modelled from the spec: `ChainWatcher` from `crate::chain::tracker`
is not under `src/`; only the two fields the embedded code reads are
modelled: the `assets` registry mapping a currency name to its
descriptor, and the decoded chain `metadata`. -/
structure ChainWatcher where
  assets : String → Option CurrencyInfo
  metadata : RuntimeMetadata

/-- Modelled from the spec: the chain client capability
(`crate::chain::rpc::asset_balance_at_account` /
`system_balance_at_account` are not under `src/`): two asynchronous,
fallible balance queries, embedded as oracle functions from the target
block, metadata, account (and asset id) to a `Balance` or a chain error. -/
structure ChainClient where
  asset_balance_at_account :
    BlockHash → RuntimeMetadata → AccountId32 → ℕ → Except ChainError Balance
  system_balance_at_account :
    BlockHash → RuntimeMetadata → AccountId32 → Except ChainError Balance

/-- `Invoice::balance` (`src/chain/definitions.rs:119-145`): look the
invoice's currency up in the watcher's registry, failing with
`ChainError::InvalidCurrency(name)` when absent; when the descriptor
carries an asset id, query the asset-scoped balance, otherwise the
native (system) balance. -/
def Invoice.balance (inv : Invoice) (client : ChainClient)
    (chain_watcher : ChainWatcher) (block : BlockHash) :
    Except ChainError Balance :=
  match chain_watcher.assets inv.currency.currency with
  | none => .error (ChainError.InvalidCurrency inv.currency.currency)
  | some currency =>
    match currency.asset_id with
    | some asset_id =>
      client.asset_balance_at_account block chain_watcher.metadata
        inv.address asset_id
    | none =>
      client.system_balance_at_account block chain_watcher.metadata
        inv.address

/-- `Invoice::check` (`src/chain/definitions.rs:147-155`):
`Ok(self.balance(...)? >= Balance::parse(self.amount, self.currency.decimals))`
— an integer fixed-point comparison on `Balance` values. -/
def Invoice.check (inv : Invoice) (client : ChainClient)
    (chain_watcher : ChainWatcher) (block : BlockHash) :
    Except ChainError Bool :=
  match inv.balance client chain_watcher block with
  | .error e => .error e
  | .ok b =>
    .ok (decide (Balance.parse inv.amount inv.currency.decimals ≤ b))

/-- The per-invoice lifecycle states of the tracker state machine
(spec §4.4): `Active → {Resolved, Expired, ForceTerminated}`. -/
inductive InvoiceState
  | Active
  | Resolved
  | Expired
  | ForceTerminated
  deriving DecidableEq

/-- The lifecycle stimuli an active invoice can receive after acceptance. -/
inductive LifecycleEvent
  | PaymentObserved
  | DeadlinePassed
  | ForceReap
  deriving DecidableEq

/-- The payment-status document made available per resolved invoice
(its fields appear in `src/callback.rs`); the fulfillment outcome travels
in such a record, a type distinct from the acceptance channel's
`ChanSend`. -/
structure OrderStatusDocument where
  order : String
  paid : Bool
  deriving DecidableEq

/-- Modelled from the spec: the tracker's per-invoice transitions
(`crate::chain::tracker` is not under `src/`). A transition only has the
`Invoice` record in hand — which, per `src/chain/definitions.rs:97-104`,
carries no acceptance sender (`res` was moved into and consumed by
`Invoice::from_request`) — so its outcome is reported through a
fulfillment `OrderStatusDocument`, never through the acceptance channel. -/
def lifecycleStep (inv : Invoice) :
    InvoiceState → LifecycleEvent → InvoiceState × List OrderStatusDocument
  | .Active, .PaymentObserved => (.Resolved, [⟨inv.id, true⟩])
  | .Active, .DeadlinePassed => (.Expired, [⟨inv.id, false⟩])
  | .Active, .ForceReap => (.ForceTerminated, [⟨inv.id, false⟩])
  | s, _ => (s, [])

/-- A whole run of one accepted watch request: `Invoice::from_request`
followed by any sequence of lifecycle events. Returns the invoice, its
final state, the sends performed on acceptance channels, and the
fulfillment documents emitted. -/
def invoiceRun (watch_account : WatchAccount)
    (events : List LifecycleEvent) :
    Invoice × InvoiceState × List ChanSend × List OrderStatusDocument :=
  let accepted := Invoice.from_request watch_account
  let final := events.foldl
    (fun (acc : InvoiceState × List OrderStatusDocument) ev =>
      let step := lifecycleStep accepted.1 acc.1 ev
      (step.1, acc.2 ++ step.2))
    (InvoiceState.Active, [])
  (accepted.1, final.1, accepted.2, final.2)

/-- Modelled from the spec: the block-subscription side of the tracker
(`crate::chain::tracker`, not under `src/`) forms one tracker-level
new-block request per newly observed block; with the `NewBlock` variant of
`ChainTrackerRequest` declared in `src/chain/definitions.rs:90`, that
request is `NewBlock` applied to the block's number — the variant has no
hash payload to fill. -/
def newBlockRequest (n : BlockNumber) (_observedHash : BlockHash) :
    ChainTrackerRequest :=
  ChainTrackerRequest.NewBlock n

/-- The payload of the `NewBlock` variant, by pattern matching. -/
def ChainTrackerRequest.newBlockNumber :
    ChainTrackerRequest → Option BlockNumber
  | .NewBlock n => some n
  | _ => none

/-! Concrete sample values used by the scenario theorems and by the
witnesses of the conditional theorems. -/

/-- A 32-byte all-zero account identifier. -/
def sampleAccount : AccountId32 := ⟨List.replicate 32 0, by simp⟩

/-- A 32-byte all-zero block hash. -/
def sampleHash0 : BlockHash := ⟨⟨List.replicate 32 0, by simp⟩⟩

/-- A 32-byte block hash starting with byte 1. -/
def sampleHash1 : BlockHash := ⟨⟨1 :: List.replicate 31 0, by simp⟩⟩

/-- The "USDC" currency descriptor as constructed in
`src/callback.rs:42-49`: asset id present (1337), 6 decimals. -/
def usdcInfo : CurrencyInfo :=
  { currency := "USDC", chain_name := "assethub-polkadot",
    kind := TokenKind.Asset, decimals := 6,
    rpc_url := "wss://example", asset_id := some 1337 }

/-- A "USDC" descriptor that disagrees with `usdcInfo` on decimals (12)
but carries the same asset id. -/
def usdcInfoOtherDecimals : CurrencyInfo :=
  { usdcInfo with decimals := 12 }

/-- An invoice due 10.5 human units of "USDC". -/
def sampleInvoice : Invoice :=
  { id := "order1", address := sampleAccount, currency := usdcInfo,
    amount := 21 / 2, recipient := sampleAccount, death := 0 }

/-- A chain watcher whose registry maps "USDC" to `usdcInfo`. -/
def watcherUSDC : ChainWatcher :=
  ⟨fun name => if name = "USDC" then some usdcInfo else none, ⟨0⟩⟩

/-- A chain watcher like `watcherUSDC` but whose "USDC" descriptor
carries 12 decimals. -/
def watcherUSDC12 : ChainWatcher :=
  ⟨fun name => if name = "USDC" then some usdcInfoOtherDecimals else none,
   ⟨0⟩⟩

/-- A chain watcher with an empty currency registry. -/
def watcherEmpty : ChainWatcher := ⟨fun _ => none, ⟨0⟩⟩

/-- A chain client whose every balance query reports `n` minimal units. -/
def clientAt (n : ℕ) : ChainClient :=
  ⟨fun _ _ _ _ => .ok ⟨n⟩, fun _ _ _ => .ok ⟨n⟩⟩

/-- A sample order for 10.5 "USDC" with an (undecodable here) text
address. -/
def sampleOrder : OrderInfo :=
  { payment_account := "5GrwvaEF", currency := usdcInfo, amount := 21 / 2,
    death := 1000 }

/-- A base58 decode oracle that always succeeds with `sampleAccount`. -/
def decodeOk : String → Except String (AccountId32 × ℕ) :=
  fun _ => .ok (sampleAccount, 0)

/-- A base58 decode oracle that always fails with reason "bad checksum". -/
def decodeErr : String → Except String (AccountId32 × ℕ) :=
  fun _ => .error "bad checksum"

/-! ## Helper lemmas on hex decoding -/

/-- Decoding the two lowercase digits an encoder emits recovers the
nibble, for every hex digit. -/
lemma hexCharValue_hexDigitChar :
    ∀ d : Fin 16, hexCharValue (hexDigitChar d) = some d := by decide

set_option maxRecDepth 4000 in
/-- Splitting a byte into nibbles and recombining is the identity. -/
lemma combineNibbles_split :
    ∀ b : Byte,
      combineNibbles ⟨b.val / 16, by omega⟩ ⟨b.val % 16, by omega⟩ = b := by
  decide

/-- Hex-decoding the hex encoding of any byte list recovers the list. -/
lemma hexDecodeChars_flatMap_byteToHex (l : List Byte) :
    hexDecodeChars (l.flatMap byteToHex) = some l := by
  induction l with
  | nil => rfl
  | cons b t ih =>
    show hexDecodeChars (byteToHex b ++ t.flatMap byteToHex) = some (b :: t)
    simp only [byteToHex, List.cons_append, List.nil_append]
    simp only [hexDecodeChars, hexCharValue_hexDigitChar, ih,
      combineNibbles_split]

/-- A successful hex decode certifies the input: even character count
(twice the byte count) and every character a hex digit. -/
lemma hexDecodeChars_some : ∀ (l : List Char) (bytes : List Byte),
    hexDecodeChars l = some bytes →
    l.length = 2 * bytes.length ∧ ∀ c ∈ l, (hexCharValue c).isSome
  | [], bytes, h => by
    simp only [hexDecodeChars, Option.some.injEq] at h
    simp [← h]
  | [c], bytes, h => by simp [hexDecodeChars] at h
  | c1 :: c2 :: rest, bytes, h => by
    revert h
    simp only [hexDecodeChars]
    cases h1 : hexCharValue c1 with
    | none => intro h; exact absurd h (by simp)
    | some hi =>
      cases h2 : hexCharValue c2 with
      | none => intro h; exact absurd h (by simp)
      | some lo =>
        cases h3 : hexDecodeChars rest with
        | none => intro h; exact absurd h (by simp)
        | some tail =>
          intro h
          obtain ⟨hlen, hall⟩ := hexDecodeChars_some rest tail h3
          simp only [Option.some.injEq] at h
          refine ⟨by simp [← h, List.length_cons, hlen]; ring, ?_⟩
          intro c hc
          rcases List.mem_cons.mp hc with rfl | hc
          · simp [h1]
          rcases List.mem_cons.mp hc with rfl | hc
          · simp [h2]
          exact hall c hc

/-- Evaluation helper: 10.5 human units at 6 decimals is 10,500,000
minimal units. -/
lemma parse_ten_and_a_half : Balance.parse (21 / 2) 6 = ⟨10500000⟩ := by
  have h : round ((21 / 2 : ℚ) * 10 ^ 6) = 10500000 := by norm_num
  simp [Balance.parse, h]

/-- Evaluation helper: the sample invoice's balance query against the
"USDC" registry and a constant client observes exactly the client's
report. -/
lemma sample_balance (n : ℕ) :
    sampleInvoice.balance (clientAt n) watcherUSDC sampleHash0 = .ok ⟨n⟩ := by
  simp [Invoice.balance, sampleInvoice, watcherUSDC, usdcInfo, clientAt]

/-- Shared helper: under a successful balance query, `Invoice::check`
returns exactly the decided fixed-point comparison against
`Balance::parse(amount, currency.decimals)`. -/
lemma Invoice.check_eq_of_balance (inv : Invoice) (client : ChainClient)
    (w : ChainWatcher) (block : BlockHash) (v : Balance)
    (hb : inv.balance client w block = .ok v) :
    inv.check client w block =
      .ok (decide (Balance.parse inv.amount inv.currency.decimals ≤ v)) := by
  simp [Invoice.check, hb]

/-- Evaluation helper: the sample 10.5-USDC invoice's check against an
observed balance of `n` minimal units decides `10500000 ≤ n`. -/
lemma sample_check_eval (n : ℕ) :
    sampleInvoice.check (clientAt n) watcherUSDC sampleHash0 =
      .ok (decide ((10500000 : ℕ) ≤ n)) := by
  rw [Invoice.check_eq_of_balance sampleInvoice (clientAt n) watcherUSDC
    sampleHash0 ⟨n⟩ (sample_balance n)]
  rw [show Balance.parse sampleInvoice.amount
      sampleInvoice.currency.decimals = ⟨10500000⟩ from parse_ten_and_a_half]
  rfl

/-! ## Claim theorems -/

/-- C7: for every 32-byte block-hash value `x`, decoding the canonical
text form yields the original value:
`BlockHash::from_str(x.to_string()) == x`. -/
theorem blockHash_text_roundtrip (x : BlockHash) :
    BlockHash.from_str (BlockHash.to_string x) = .ok x := by
  obtain ⟨⟨l, hl⟩⟩ := x
  show BlockHash.from_str ⟨'0' :: 'x' :: l.flatMap byteToHex⟩ =
    .ok ⟨⟨l, hl⟩⟩
  have hstrip : stripHexPrefix ('0' :: 'x' :: l.flatMap byteToHex) =
      l.flatMap byteToHex := by
    simp [stripHexPrefix]
  simp only [BlockHash.from_str, unhex]
  rw [hstrip, hexDecodeChars_flatMap_byteToHex]
  simp [hl]

/-- C8: `BlockHash::from_str` rejects every input whose hex payload (the
characters after the optional `0x` prefix) has odd length or a non-hex
character, with `ChainError::NotHex NotHexError.BlockHash` (the spec's
`MalformedHex`); rejects every input whose decoded byte count is not 32
with the distinct `ChainError::BlockHashLength` (the spec's
`WrongLength`); and never succeeds on such inputs — a success certifies a
64-character all-hex payload. -/
theorem blockHash_from_str_rejects (s : String) :
    (((stripHexPrefix s.data).length % 2 = 1 ∨
        ∃ c ∈ stripHexPrefix s.data, hexCharValue c = none) →
      BlockHash.from_str s = .error (ChainError.NotHex NotHexError.BlockHash)) ∧
    (∀ bytes, hexDecodeChars (stripHexPrefix s.data) = some bytes →
      bytes.length ≠ 32 →
      BlockHash.from_str s = .error ChainError.BlockHashLength) ∧
    (∀ h, BlockHash.from_str s = .ok h →
      (stripHexPrefix s.data).length = 64 ∧
      ∀ c ∈ stripHexPrefix s.data, (hexCharValue c).isSome) := by
  refine ⟨?_, ?_, ?_⟩
  · intro hbad
    have hnone : hexDecodeChars (stripHexPrefix s.data) = none := by
      cases hd : hexDecodeChars (stripHexPrefix s.data) with
      | none => rfl
      | some bytes =>
        obtain ⟨hlen, hall⟩ := hexDecodeChars_some _ _ hd
        rcases hbad with hodd | ⟨c, hc, hcv⟩
        · omega
        · have := hall c hc
          rw [hcv] at this
          simp at this
    simp [BlockHash.from_str, unhex, hnone]
  · intro bytes hd hne
    simp [BlockHash.from_str, unhex, hd, hne]
  · intro h
    simp only [BlockHash.from_str, unhex]
    cases hd : hexDecodeChars (stripHexPrefix s.data) with
    | none => simp
    | some bytes =>
      obtain ⟨hlen, hall⟩ := hexDecodeChars_some _ _ hd
      by_cases h32 : bytes.length = 32
      · intro _
        exact ⟨by omega, hall⟩
      · simp [h32]

/-- Witness for C8: the all-letters non-hex input `"zz"` is rejected as
malformed hex, and `"0x00"` (valid hex, 1 decoded byte) is rejected with
the distinct wrong-length kind. -/
theorem blockHash_from_str_rejects_witness :
    BlockHash.from_str ⟨['z', 'z']⟩ =
      .error (ChainError.NotHex NotHexError.BlockHash) ∧
    BlockHash.from_str ⟨['0', 'x', '0', '0']⟩ =
      .error ChainError.BlockHashLength :=
  ⟨(blockHash_from_str_rejects ⟨['z', 'z']⟩).1
      (Or.inr ⟨'z', by decide, by decide⟩),
   (blockHash_from_str_rejects ⟨['0', 'x', '0', '0']⟩).2.1 [0]
      (by decide) (by decide)⟩

/-- C1: `Invoice::check` computes exactly the integer fixed-point
comparison `observed >= Balance::parse(amount, currency.decimals)` on the
balance observed at the given block, and returns `Ok(true)` iff the
observed balance is at least the due amount at the currency's decimal
scale (no floating-point equality anywhere: the comparison is `≤` on the
fixed-point integers). -/
theorem invoice_check_satisfaction (inv : Invoice) (client : ChainClient)
    (w : ChainWatcher) (block : BlockHash) (v : Balance)
    (hb : inv.balance client w block = .ok v) :
    inv.check client w block =
      .ok (decide (Balance.parse inv.amount inv.currency.decimals ≤ v)) ∧
    (inv.check client w block = .ok true ↔
      Balance.parse inv.amount inv.currency.decimals ≤ v) := by
  refine ⟨Invoice.check_eq_of_balance inv client w block v hb, ?_⟩
  rw [Invoice.check_eq_of_balance inv client w block v hb]
  simp

/-- Witness for C1: the sample 10.5-USDC invoice against an observed
balance of 10,500,000 minimal units. -/
theorem invoice_check_satisfaction_witness :
    sampleInvoice.check (clientAt 10500000) watcherUSDC sampleHash0 =
      .ok true :=
  (invoice_check_satisfaction sampleInvoice (clientAt 10500000) watcherUSDC
      sampleHash0 ⟨10500000⟩ (sample_balance 10500000)).2.mpr
    (by
      rw [show Balance.parse sampleInvoice.amount
        sampleInvoice.currency.decimals = ⟨10500000⟩ from
        parse_ten_and_a_half]
      exact Nat.le_refl 10500000)

/-- C5: the satisfaction check is monotonic in the observed balance: if
`Invoice::check` holds at observed balance `v` it holds at any observed
balance `v' ≥ v` for the same invoice (same due amount and decimals). -/
theorem invoice_check_monotone (inv : Invoice) (w : ChainWatcher)
    (block : BlockHash) (client client' : ChainClient) (v v' : Balance)
    (hb : inv.balance client w block = .ok v)
    (hb' : inv.balance client' w block = .ok v')
    (hvv : v ≤ v')
    (hsat : inv.check client w block = .ok true) :
    inv.check client' w block = .ok true := by
  rw [Invoice.check_eq_of_balance inv client w block v hb] at hsat
  simp only [Except.ok.injEq, decide_eq_true_eq] at hsat
  rw [Invoice.check_eq_of_balance inv client' w block v' hb']
  simp only [Except.ok.injEq, decide_eq_true_eq]
  exact Nat.le_trans hsat hvv

/-- Witness for C5: satisfaction at 10,500,000 propagates to the larger
observed balance 10,600,000. -/
theorem invoice_check_monotone_witness :
    sampleInvoice.check (clientAt 10600000) watcherUSDC sampleHash0 =
      .ok true :=
  invoice_check_monotone sampleInvoice watcherUSDC sampleHash0
    (clientAt 10500000) (clientAt 10600000) ⟨10500000⟩ ⟨10600000⟩
    (sample_balance 10500000) (sample_balance 10600000)
    (by decide) (by rw [sample_check_eval]; decide)

/-- C6: scenario — asset-backed currency with 6 decimals, due amount 10.5
human units: `Invoice::check` is true at observed balance 10,500,000
minimal units and false at 10,499,999. -/
theorem usdc_scenario_check :
    sampleInvoice.check (clientAt 10500000) watcherUSDC sampleHash0 =
      .ok true ∧
    sampleInvoice.check (clientAt 10499999) watcherUSDC sampleHash0 =
      .ok false := by
  exact ⟨by rw [sample_check_eval]; decide, by rw [sample_check_eval]; decide⟩

/-- C4: `Invoice::balance` fails with
`ChainError::InvalidCurrency(name)` (the spec's `UnknownCurrency`) when
the invoice's currency is absent from the chain context's registry; when
the looked-up descriptor carries an asset id it issues the asset-scoped
query, and otherwise the native (system) query. -/
theorem invoice_balance_routing (inv : Invoice) (client : ChainClient)
    (w : ChainWatcher) (block : BlockHash) :
    (w.assets inv.currency.currency = none →
      inv.balance client w block =
        .error (ChainError.InvalidCurrency inv.currency.currency)) ∧
    (∀ cur aid, w.assets inv.currency.currency = some cur →
      cur.asset_id = some aid →
      inv.balance client w block =
        client.asset_balance_at_account block w.metadata inv.address aid) ∧
    (∀ cur, w.assets inv.currency.currency = some cur →
      cur.asset_id = none →
      inv.balance client w block =
        client.system_balance_at_account block w.metadata inv.address) := by
  refine ⟨?_, ?_, ?_⟩
  · intro hnone
    simp [Invoice.balance, hnone]
  · intro cur aid hsome haid
    simp [Invoice.balance, hsome, haid]
  · intro cur hsome haid
    simp [Invoice.balance, hsome, haid]

/-- Witness for C4: the sample invoice against the empty registry fails
with the unknown-currency kind naming "USDC", and against the "USDC"
registry issues the asset-scoped query. -/
theorem invoice_balance_routing_witness :
    sampleInvoice.balance (clientAt 3) watcherEmpty sampleHash0 =
      .error (ChainError.InvalidCurrency "USDC") ∧
    sampleInvoice.balance (clientAt 3) watcherUSDC sampleHash0 =
      (clientAt 3).asset_balance_at_account sampleHash0 watcherUSDC.metadata
        sampleInvoice.address 1337 :=
  ⟨(invoice_balance_routing sampleInvoice (clientAt 3) watcherEmpty
      sampleHash0).1 rfl,
   (invoice_balance_routing sampleInvoice (clientAt 3) watcherUSDC
      sampleHash0).2.1 usdcInfo 1337 rfl rfl⟩

/-- C2: the conversion of an inbound watch request into an `Invoice`:
`WatchAccount::new` decodes the watched account's text address into its
32-byte identifier, failing with `ChainError::InvoiceAccount(reason)`
(the spec's `InvalidAccount`) when decoding fails; on success,
`Invoice::from_request` immediately signals acceptance (`Ok(())`) on the
request's single-use channel and returns the `Invoice` built from the
request's fields. -/
theorem watch_to_invoice_conversion
    (dec : String → Except String (AccountId32 × ℕ))
    (id : String) (order : OrderInfo) (recipient : AccountId32)
    (res : OneshotSender) :
    (∀ e, dec order.payment_account = .error e →
      WatchAccount.new dec id order recipient res =
        .error (ChainError.InvoiceAccount e)) ∧
    (∀ a, dec order.payment_account = .ok a →
      WatchAccount.new dec id order recipient res =
        .ok { id := id, address := a.1, currency := order.currency,
              amount := order.amount, recipient := recipient, res := res,
              death := order.death } ∧
      Invoice.from_request
          { id := id, address := a.1, currency := order.currency,
            amount := order.amount, recipient := recipient, res := res,
            death := order.death } =
        ({ id := id, address := a.1, currency := order.currency,
           amount := order.amount, recipient := recipient,
           death := order.death },
         [{ chan := res.chan, val := .ok () }])) := by
  constructor
  · intro e he
    simp [WatchAccount.new, he]
  · intro a ha
    exact ⟨by simp [WatchAccount.new, ha], rfl⟩

/-- Witness for C2: a failing decode surfaces the reason under the
invalid-account kind; a succeeding decode yields the watch account, whose
conversion immediately sends `Ok(())` on its acceptance channel. -/
theorem watch_to_invoice_conversion_witness :
    WatchAccount.new decodeErr "order1" sampleOrder sampleAccount ⟨7⟩ =
      .error (ChainError.InvoiceAccount "bad checksum") ∧
    WatchAccount.new decodeOk "order1" sampleOrder sampleAccount ⟨7⟩ =
      .ok { id := "order1", address := sampleAccount, currency := usdcInfo,
            amount := 21 / 2, recipient := sampleAccount, res := ⟨7⟩,
            death := 1000 } :=
  ⟨(watch_to_invoice_conversion decodeErr "order1" sampleOrder
      sampleAccount ⟨7⟩).1 "bad checksum" rfl,
   ((watch_to_invoice_conversion decodeOk "order1" sampleOrder
      sampleAccount ⟨7⟩).2 (sampleAccount, 0) rfl).1⟩

/-- C3: over a whole run — acceptance via `Invoice::from_request`
followed by any sequence of lifecycle events (payment, expiry,
force-termination) — the acceptance channel of the accepted watch
request receives exactly one send, with success, at invoice-creation
time, and nothing afterwards: the run's complete list of acceptance
sends is the singleton `Ok(())` on the request's channel, independent of
the event sequence. -/
theorem acceptance_resolved_exactly_once (wa : WatchAccount)
    (events : List LifecycleEvent) :
    (invoiceRun wa events).2.2.1 =
      [{ chan := wa.res.chan, val := .ok () }] := rfl

/-- C9 counterexample (original claim refuted): two newly observed
blocks with the same number but different hashes give rise to the same
tracker-level new-block request — the `NewBlock` variant cannot be
carrying the block hash. -/
theorem newblock_forgets_hash :
    sampleHash0 ≠ sampleHash1 ∧
    newBlockRequest 5 sampleHash0 = newBlockRequest 5 sampleHash1 :=
  ⟨by decide, rfl⟩

/-- C9 (amended): the tracker-level new-block request variant carries
the block number of the newly observed block — and only that: the
number is recoverable from the request, and requests agree exactly when
the numbers do. -/
theorem newblock_carries_number (n n' : BlockNumber)
    (observed observed' : BlockHash) :
    (newBlockRequest n observed).newBlockNumber = some n ∧
    (newBlockRequest n observed = newBlockRequest n' observed' ↔ n = n') := by
  refine ⟨rfl, ?_, ?_⟩
  · intro h
    simpa [newBlockRequest, ChainTrackerRequest.NewBlock.injEq] using h
  · intro h
    simp [newBlockRequest, h]

/-- Witness for the amended C9: the request for block number 5 carries
the number 5, and requests with equal numbers coincide. -/
theorem newblock_carries_number_witness :
    (newBlockRequest 5 sampleHash0).newBlockNumber = some 5 ∧
    newBlockRequest 5 sampleHash0 = newBlockRequest 5 sampleHash1 :=
  ⟨(newblock_carries_number 5 5 sampleHash0 sampleHash1).1,
   (newblock_carries_number 5 5 sampleHash0 sampleHash1).2.mpr rfl⟩

/-- C10: the satisfaction check's fixed-point scale comes from the
invoice's own currency record captured at watch time, while the chain
context's registry only routes the query: two registries whose
descriptors for the invoice's currency agree on the asset id (but may
disagree on decimals) give the identical balance query and the identical
check outcome, and under any successful query the check decides the
comparison against `Balance::parse(amount, invoice.currency.decimals)`. -/
theorem check_scale_from_invoice_not_registry (inv : Invoice)
    (client : ChainClient) (block : BlockHash) (w w' : ChainWatcher)
    (cur cur' : CurrencyInfo)
    (hw : w.assets inv.currency.currency = some cur)
    (hw' : w'.assets inv.currency.currency = some cur')
    (hmeta : w.metadata = w'.metadata)
    (haid : cur.asset_id = cur'.asset_id) :
    inv.balance client w block = inv.balance client w' block ∧
    inv.check client w block = inv.check client w' block ∧
    (∀ v, inv.balance client w block = .ok v →
      inv.check client w block =
        .ok (decide (Balance.parse inv.amount inv.currency.decimals ≤ v))) := by
  have hbal : inv.balance client w block = inv.balance client w' block := by
    simp only [Invoice.balance, hw, hw', haid, hmeta]
  refine ⟨hbal, ?_, ?_⟩
  · simp only [Invoice.check, hbal]
  · intro v hv
    exact Invoice.check_eq_of_balance inv client w block v hv

/-- Witness for C10: the 6-decimal and 12-decimal "USDC" registries give
the same balance query and the same check outcome for the sample
invoice. -/
theorem check_scale_from_invoice_not_registry_witness :
    sampleInvoice.balance (clientAt 10500000) watcherUSDC sampleHash0 =
      sampleInvoice.balance (clientAt 10500000) watcherUSDC12 sampleHash0 ∧
    sampleInvoice.check (clientAt 10500000) watcherUSDC sampleHash0 =
      sampleInvoice.check (clientAt 10500000) watcherUSDC12 sampleHash0 :=
  ⟨(check_scale_from_invoice_not_registry sampleInvoice
      (clientAt 10500000) sampleHash0 watcherUSDC watcherUSDC12 usdcInfo
      usdcInfoOtherDecimals rfl rfl rfl rfl).1,
   (check_scale_from_invoice_not_registry sampleInvoice
      (clientAt 10500000) sampleHash0 watcherUSDC watcherUSDC12 usdcInfo
      usdcInfoOtherDecimals rfl rfl rfl rfl).2.1⟩
